import Mathlib

/-!
Shallow embedding of the arcade-game simulation core in `src/index.tsx`.

The simulation state (React refs plus the pieces of React state the loop
reads and writes) is collected in one structure `GameData`.  The per-frame
`update` callback is embedded as `updateFrame`; its pure simulation part is
`tick`.  Numeric values are rationals (`ℚ`), which represent every constant
of the source exactly (gravity 0.5, jump strength -8, speed 3, ...).
Randomness (the spawned obstacle's `topHeight`) is passed in as an explicit
argument, as are the canvas width and height.
-/

namespace StriveBird

/-- GRAVITY = 0.5 (src/index.tsx line 5). -/
def GRAVITY : ℚ := 1/2

/-- JUMP_STRENGTH = -8 (line 6). -/
def JUMP_STRENGTH : ℚ := -8

/-- PIPE_SPEED = 3 (line 7). -/
def PIPE_SPEED : ℚ := 3

/-- PIPE_SPAWN_RATE = 100 frames between pipes (line 8). -/
def PIPE_SPAWN_RATE : ℕ := 100

/-- PIPE_GAP = 160 (line 9). -/
def PIPE_GAP : ℚ := 160

/-- BIRD_HITBOX = 24, the physical size of the bird box (line 11). -/
def BIRD_HITBOX : ℚ := 24

/-- PIPE_WIDTH = 60 (line 12). -/
def PIPE_WIDTH : ℚ := 60

/-- The bird's fixed left edge, `const birdLeft = 50` (line 167). -/
def birdLeft : ℚ := 50

/-- The bird's right edge, `50 + BIRD_HITBOX` (line 168). -/
def birdRight : ℚ := birdLeft + BIRD_HITBOX

/-- One pipe: `interface Pipe { x; topHeight; passed }` (lines 17-21). -/
structure Pipe where
  x : ℚ
  topHeight : ℚ
  passed : Bool
deriving DecidableEq

/-- `type GameState = 'START' | 'PLAYING' | 'GAMEOVER' | 'PAUSED'` (line 15). -/
inductive GameState where
  | START
  | PLAYING
  | GAMEOVER
  | PAUSED
deriving DecidableEq

/-- The simulation state the loop reads and writes: the refs `birdY`,
`birdVelocity`, `pipes`, `frameCount`, `scoreRef` and the React state
`gameState`, `highScore`; `aiRequests` records, in order, the final scores
for which `generateMotivation` has been fired (fire-and-forget). -/
structure GameData where
  gameState : GameState
  birdY : ℚ
  birdVelocity : ℚ
  pipes : List Pipe
  frameCount : ℕ
  score : ℕ
  highScore : ℕ
  aiRequests : List ℕ
deriving DecidableEq

/-- Spawn step (lines 144-154): after incrementing, if the frame counter is a
multiple of PIPE_SPAWN_RATE, push a pipe at `x = canvas.width` with the random
`topHeight` and `passed: false`.  `fc` is the already-incremented counter. -/
def spawnStep (W rh : ℚ) (fc : ℕ) (ps : List Pipe) : List Pipe :=
  if fc % PIPE_SPAWN_RATE = 0 then
    ps ++ [{ x := W, topHeight := rh, passed := false }]
  else ps

/-- Pipe movement (lines 157-159): every pipe's x decreases by PIPE_SPEED. -/
def movePipes (ps : List Pipe) : List Pipe :=
  ps.map fun p => { p with x := p.x - PIPE_SPEED }

/-- Off-screen removal (lines 162-164): if the list is nonempty and the front
pipe has `x < -PIPE_WIDTH`, shift it off the front. -/
def removeOffscreen (ps : List Pipe) : List Pipe :=
  match ps with
  | [] => []
  | p :: rest => if p.x < -PIPE_WIDTH then rest else p :: rest

/-- The pipe list as it stands when collision/passage checks run on a PLAYING
tick: spawned (with incremented counter), moved, and front-pruned. -/
def activePipes (W rh : ℚ) (s : GameData) : List Pipe :=
  removeOffscreen (movePipes (spawnStep W rh (s.frameCount + 1) s.pipes))

/-- Per-pipe collision test (lines 181-190): horizontal overlap
`birdRight > pipeLeft && birdLeft < pipeRight`, then vertical
`birdTop < topHeight || birdBottom > topHeight + PIPE_GAP`. -/
def pipeCollides (birdTop birdBottom : ℚ) (p : Pipe) : Bool :=
  decide (birdRight > p.x) && decide (birdLeft < p.x + PIPE_WIDTH) &&
    (decide (birdTop < p.topHeight) || decide (birdBottom > p.topHeight + PIPE_GAP))

/-- Passage condition (line 193): `!pipe.passed && birdLeft > pipeRight`. -/
def newlyPassed (p : Pipe) : Bool :=
  !p.passed && decide (birdLeft > p.x + PIPE_WIDTH)

/-- The effect of the passage branch on one pipe (line 194). -/
def markPassage (p : Pipe) : Pipe :=
  if newlyPassed p then { p with passed := true } else p

/-- One iteration of the `pipes.forEach` body (lines 180-198): accumulate the
updated pipe list, the score, and the `collided` flag. -/
def pipeStep (birdTop birdBottom : ℚ) (acc : List Pipe × ℕ × Bool) (p : Pipe) :
    List Pipe × ℕ × Bool :=
  let col := acc.2.2 || pipeCollides birdTop birdBottom p
  if newlyPassed p then
    (acc.1 ++ [{ p with passed := true }], acc.2.1 + 1, col)
  else
    (acc.1 ++ [p], acc.2.1, col)

/-- The whole `pipes.forEach` loop (lines 180-198). -/
def pipeLoop (birdTop birdBottom : ℚ) (sc : ℕ) (ps : List Pipe) :
    List Pipe × ℕ × Bool :=
  ps.foldl (pipeStep birdTop birdBottom) ([], sc, false)

/-- Ground/ceiling test (line 173): `birdBottom >= canvas.height || birdTop <= 0`. -/
def ceilingFloorHit (H y : ℚ) : Bool :=
  decide (y + BIRD_HITBOX ≥ H) || decide (y ≤ 0)

/-- `triggerGameOver` (lines 122-136): set GAMEOVER, raise the high score to
`max` with the current score read from `scoreRef`, and fire one
`generateMotivation(finalScore)` request. -/
def triggerGameOver (s : GameData) : GameData :=
  { s with gameState := GameState.GAMEOVER,
           highScore := max s.highScore s.score,
           aiRequests := s.aiRequests ++ [s.score] }

/-- The per-frame `update` callback (lines 115-286), minus the canvas drawing
calls.  The Boolean result records whether control reached the render section
(the `return` statements on lines 175 and 202 skip it). -/
def updateFrame (W H rh : ℚ) (s : GameData) : GameData × Bool :=
  if s.gameState = GameState.PLAYING then
    let v := s.birdVelocity + GRAVITY
    let y := s.birdY + v
    let fc := s.frameCount + 1
    let ps := activePipes W rh s
    if ceilingFloorHit H y then
      (triggerGameOver { s with birdY := y, birdVelocity := v, frameCount := fc,
                                pipes := ps }, false)
    else
      let r := pipeLoop y (y + BIRD_HITBOX) s.score ps
      let s2 := { s with birdY := y, birdVelocity := v, frameCount := fc,
                         pipes := r.1, score := r.2.1 }
      if r.2.2 then (triggerGameOver s2, false) else (s2, true)
  else (s, true)

/-- The simulation part of one frame. -/
def tick (W H rh : ℚ) (s : GameData) : GameData :=
  (updateFrame W H rh s).1

/-- Iterated frames; `rhf t` is the random gap height drawn on frame `t`. -/
def ticks (W H : ℚ) (rhf : ℕ → ℚ) : ℕ → GameData → GameData
  | 0, s => s
  | t + 1, s => tick W H (rhf t) (ticks W H rhf t s)

/-- `resetGame` (lines 288-297): back to START with fresh entity, empty pipe
list, zero score and counter; the high score is kept. -/
def resetGame (s : GameData) : GameData :=
  { s with gameState := GameState.START, birdY := 300, birdVelocity := 0,
           pipes := [], frameCount := 0, score := 0 }

/-- `startGame` (lines 299-302): reset, then switch to PLAYING. -/
def startGame (s : GameData) : GameData :=
  { resetGame s with gameState := GameState.PLAYING }

/-- The `jump` input handler (lines 317-330): in PLAYING set the velocity to
JUMP_STRENGTH; in START start a fresh run; otherwise do nothing. -/
def jump (s : GameData) : GameData :=
  match s.gameState with
  | GameState.PLAYING => { s with birdVelocity := JUMP_STRENGTH }
  | GameState.START => startGame s
  | _ => s

/-- `togglePause` (lines 308-315). -/
def togglePause (s : GameData) : GameData :=
  match s.gameState with
  | GameState.PLAYING => { s with gameState := GameState.PAUSED }
  | GameState.PAUSED => { s with gameState := GameState.PLAYING }
  | _ => s

/-- An axis-aligned box, for stating the spec's overlap condition. -/
structure Box where
  left : ℚ
  right : ℚ
  top : ℚ
  bottom : ℚ

/-- Modelled from the spec: strict AABB overlap, `aLeft < bRight && aRight >
bLeft` on both axes.  This is the spec-side definition the code's collision
tests are compared against. -/
def overlaps (a b : Box) : Prop :=
  a.left < b.right ∧ a.right > b.left ∧ a.top < b.bottom ∧ a.bottom > b.top

instance (a b : Box) : Decidable (overlaps a b) := by
  unfold overlaps
  infer_instance

/-- The entity's bounding box given its top edge `y`. -/
def birdBox (y : ℚ) : Box :=
  { left := birdLeft, right := birdRight, top := y, bottom := y + BIRD_HITBOX }

/-- An obstacle's top segment box, x in [x, x+width], y in [0, gapTopOffset]. -/
def topSegmentBox (p : Pipe) : Box :=
  { left := p.x, right := p.x + PIPE_WIDTH, top := 0, bottom := p.topHeight }

/-- An obstacle's bottom segment box, x in [x, x+width], y in
[gapTopOffset+gapHeight, playfieldHeight]. -/
def bottomSegmentBox (H : ℚ) (p : Pipe) : Box :=
  { left := p.x, right := p.x + PIPE_WIDTH, top := p.topHeight + PIPE_GAP,
    bottom := H }

/-! ### Helper lemmas -/

/-- The `forEach` fold, characterised: the updated list is a pointwise
`markPassage`, the score grows by the number of newly passed pipes, and the
collided flag is a disjunction over the pipes. -/
theorem foldl_pipeStep (bt bb : ℚ) (ps : List Pipe) (l0 : List Pipe) (s0 : ℕ)
    (c0 : Bool) :
    ps.foldl (pipeStep bt bb) (l0, s0, c0) =
      (l0 ++ ps.map markPassage, s0 + ps.countP newlyPassed,
       c0 || ps.any (pipeCollides bt bb)) := by
  induction ps generalizing l0 s0 c0 with
  | nil => simp
  | cons p rest ih =>
    rw [List.foldl_cons]
    by_cases h : newlyPassed p = true
    · have hstep : pipeStep bt bb (l0, s0, c0) p =
          (l0 ++ [{ p with passed := true }], s0 + 1,
           c0 || pipeCollides bt bb p) := by
        simp [pipeStep, h]
      rw [hstep, ih]
      simp only [List.map_cons, List.countP_cons, List.any_cons, h,
        markPassage, if_pos, Prod.mk.injEq]
      refine ⟨by simp, by omega, by simp [Bool.or_assoc]⟩
    · have hstep : pipeStep bt bb (l0, s0, c0) p =
          (l0 ++ [p], s0, c0 || pipeCollides bt bb p) := by
        simp [pipeStep, h]
      rw [hstep, ih]
      simp only [List.map_cons, List.countP_cons, List.any_cons, h,
        markPassage, if_neg, Prod.mk.injEq]
      refine ⟨by simp [markPassage, h], by simp [h], by simp [Bool.or_assoc]⟩

/-- `pipeLoop`, characterised. -/
theorem pipeLoop_eq (bt bb : ℚ) (sc : ℕ) (ps : List Pipe) :
    pipeLoop bt bb sc ps =
      (ps.map markPassage, sc + ps.countP newlyPassed,
       ps.any (pipeCollides bt bb)) := by
  rw [pipeLoop, foldl_pipeStep]
  simp

/-- A frame in any state other than PLAYING changes nothing and renders. -/
theorem updateFrame_not_playing (W H rh : ℚ) (s : GameData)
    (h : s.gameState ≠ GameState.PLAYING) :
    updateFrame W H rh s = (s, true) := by
  rw [updateFrame, if_neg h]

/-- `tick` on a non-PLAYING state is the identity. -/
theorem tick_not_playing (W H rh : ℚ) (s : GameData)
    (h : s.gameState ≠ GameState.PLAYING) :
    tick W H rh s = s := by
  rw [tick, updateFrame_not_playing W H rh s h]

/-- On a PLAYING tick the frame counter goes up by exactly one. -/
theorem tick_frameCount (W H rh : ℚ) (s : GameData)
    (h : s.gameState = GameState.PLAYING) :
    (tick W H rh s).frameCount = s.frameCount + 1 := by
  rw [tick, updateFrame, if_pos h]
  dsimp only
  split
  · rfl
  · split <;> rfl

/-- On a PLAYING tick the physics integrates exactly once, in every branch. -/
theorem tick_physics (W H rh : ℚ) (s : GameData)
    (h : s.gameState = GameState.PLAYING) :
    (tick W H rh s).birdVelocity = s.birdVelocity + GRAVITY ∧
      (tick W H rh s).birdY = s.birdY + (s.birdVelocity + GRAVITY) := by
  rw [tick, updateFrame, if_pos h]
  dsimp only
  split
  · exact ⟨rfl, rfl⟩
  · split <;> exact ⟨rfl, rfl⟩

/-- `tick` never moves a state into PLAYING: the result is PLAYING only if
the input was. -/
theorem tick_playing_of_result (W H rh : ℚ) (s : GameData)
    (h : (tick W H rh s).gameState = GameState.PLAYING) :
    s.gameState = GameState.PLAYING := by
  by_cases hs : s.gameState = GameState.PLAYING
  · exact hs
  · rw [tick_not_playing W H rh s hs] at h
    exact absurd h hs

/-- If the state is still PLAYING after `t` iterated ticks from a state with
frame counter 0, the counter reads exactly `t`. -/
theorem ticks_frameCount (W H : ℚ) (rhf : ℕ → ℚ) (s : GameData) (t : ℕ)
    (h0 : s.frameCount = 0)
    (hP : (ticks W H rhf t s).gameState = GameState.PLAYING) :
    (ticks W H rhf t s).frameCount = t := by
  induction t with
  | zero => exact h0
  | succ t ih =>
    have hP2 : (ticks W H rhf t s).gameState = GameState.PLAYING :=
      tick_playing_of_result W H (rhf t) _ hP
    rw [ticks, tick_frameCount W H (rhf t) _ hP2, ih hP2]

/-- A PLAYING tick, in closed form: integrate, spawn/move/prune, then either
the ceiling/floor branch, the pipe-collision branch, or the ordinary branch,
with the passage marking and score bump of the `forEach` made explicit. -/
theorem tick_playing_eq (W H rh : ℚ) (s : GameData)
    (h : s.gameState = GameState.PLAYING) :
    tick W H rh s =
      (if ceilingFloorHit H (s.birdY + (s.birdVelocity + GRAVITY)) then
        triggerGameOver { s with
          birdY := s.birdY + (s.birdVelocity + GRAVITY),
          birdVelocity := s.birdVelocity + GRAVITY,
          frameCount := s.frameCount + 1,
          pipes := activePipes W rh s }
      else if (activePipes W rh s).any
          (pipeCollides (s.birdY + (s.birdVelocity + GRAVITY))
            (s.birdY + (s.birdVelocity + GRAVITY) + BIRD_HITBOX)) then
        triggerGameOver { s with
          birdY := s.birdY + (s.birdVelocity + GRAVITY),
          birdVelocity := s.birdVelocity + GRAVITY,
          frameCount := s.frameCount + 1,
          pipes := (activePipes W rh s).map markPassage,
          score := s.score + (activePipes W rh s).countP newlyPassed }
      else { s with
          birdY := s.birdY + (s.birdVelocity + GRAVITY),
          birdVelocity := s.birdVelocity + GRAVITY,
          frameCount := s.frameCount + 1,
          pipes := (activePipes W rh s).map markPassage,
          score := s.score + (activePipes W rh s).countP newlyPassed }) := by
  rw [tick, updateFrame, if_pos h]
  simp only [pipeLoop_eq]
  split_ifs <;> rfl

/-- The code's per-pipe collision test agrees with strict AABB overlap
against the obstacle's two segment boxes, provided the entity is strictly
inside the playfield vertically. -/
theorem pipeCollides_iff_overlap (H : ℚ) (p : Pipe) (y : ℚ)
    (h1 : 0 < y) (h2 : y + BIRD_HITBOX < H) :
    (pipeCollides y (y + BIRD_HITBOX) p = true ↔
      overlaps (birdBox y) (topSegmentBox p) ∨
        overlaps (birdBox y) (bottomSegmentBox H p)) := by
  unfold pipeCollides overlaps birdBox topSegmentBox bottomSegmentBox
  simp only [Bool.and_eq_true, Bool.or_eq_true, decide_eq_true_eq, gt_iff_lt]
  constructor
  · rintro ⟨⟨ha, hb⟩, hc | hc⟩
    · exact Or.inl ⟨hb, ha, hc, by unfold BIRD_HITBOX; linarith⟩
    · exact Or.inr ⟨hb, ha, by unfold BIRD_HITBOX at h2; linarith, hc⟩
  · rintro (⟨hb, ha, hc, -⟩ | ⟨hb, ha, -, hc⟩)
    · exact ⟨⟨ha, hb⟩, Or.inl hc⟩
    · exact ⟨⟨ha, hb⟩, Or.inr hc⟩

/-! ### Concrete states used by witnesses and counterexamples -/

/-- The fresh run of the spec scenario: position 300, velocity 0, PLAYING. -/
def baseState : GameData :=
  { gameState := GameState.PLAYING, birdY := 300, birdVelocity := 0,
    pipes := [], frameCount := 0, score := 0, highScore := 0, aiRequests := [] }

/-- A mid-run state frozen in PAUSED. -/
def pausedState : GameData :=
  { gameState := GameState.PAUSED, birdY := 123, birdVelocity := 4,
    pipes := [{ x := 200, topHeight := 80, passed := false }],
    frameCount := 7, score := 2, highScore := 5, aiRequests := [] }

/-- A finished run sitting on the game-over screen. -/
def endedState : GameData :=
  { gameState := GameState.GAMEOVER, birdY := 500, birdVelocity := 9,
    pipes := [], frameCount := 40, score := 3, highScore := 3,
    aiRequests := [3] }

/-- The menu state. -/
def idleState : GameData :=
  { baseState with gameState := GameState.START }

/-! ### Claim theorems -/

/-- C1: during every PLAYING tick the physics integrates exactly once, as
velocity + GRAVITY first and then position + new velocity, in every branch
of the tick. -/
theorem claim_physics_per_tick (W H rh : ℚ) (s : GameData)
    (h : s.gameState = GameState.PLAYING) :
    (tick W H rh s).birdVelocity = s.birdVelocity + GRAVITY ∧
      (tick W H rh s).birdY = s.birdY + (s.birdVelocity + GRAVITY) :=
  tick_physics W H rh s h

/-- C1 witness: at position 300 with velocity 0 and gravity 0.5, one tick
gives velocity 1/2 and position 601/2 = 300.5; after an impulse (velocity
-8) one tick gives velocity -15/2 = -7.5 and position 585/2 = 292.5. -/
theorem claim_physics_per_tick_witness :
    baseState.gameState = GameState.PLAYING ∧
      ((tick 480 600 100 baseState).birdVelocity =
          baseState.birdVelocity + GRAVITY ∧
        (tick 480 600 100 baseState).birdY =
          baseState.birdY + (baseState.birdVelocity + GRAVITY)) ∧
      (tick 480 600 100 baseState).birdVelocity = 1/2 ∧
      (tick 480 600 100 baseState).birdY = 601/2 ∧
      (tick 480 600 100 (jump baseState)).birdVelocity = -15/2 ∧
      (tick 480 600 100 (jump baseState)).birdY = 585/2 := by
  refine ⟨rfl, claim_physics_per_tick 480 600 100 baseState rfl, ?_, ?_, ?_, ?_⟩ <;>
    norm_num [tick, updateFrame, activePipes, spawnStep, movePipes,
      removeOffscreen, pipeLoop, pipeStep, pipeCollides, newlyPassed,
      markPassage, ceilingFloorHit, triggerGameOver, GRAVITY, JUMP_STRENGTH,
      BIRD_HITBOX, PIPE_SPAWN_RATE, baseState, jump]

/-- C2: for an entity strictly inside the playfield vertically (top above 0,
bottom below the playfield height), the per-pipe collision test of the code
holds exactly when the entity box strictly overlaps the obstacle's top
segment box or its bottom segment box. -/
theorem claim_obstacle_collision_iff (H : ℚ) (p : Pipe) (y : ℚ)
    (h1 : 0 < y) (h2 : y + BIRD_HITBOX < H) :
    (pipeCollides y (y + BIRD_HITBOX) p = true ↔
      overlaps (birdBox y) (topSegmentBox p) ∨
        overlaps (birdBox y) (bottomSegmentBox H p)) :=
  pipeCollides_iff_overlap H p y h1 h2

/-- C2 witness: obstacle with topHeight 50, gap 160, playfield height 600;
an entity box at y = 100 (inside the gap band (50, 210)) over the
obstacle's x-range does not collide, while one at y = 40 does. -/
theorem claim_obstacle_collision_iff_witness :
    (0 : ℚ) < 100 ∧ (100 : ℚ) + BIRD_HITBOX < 600 ∧
      (pipeCollides 100 (100 + BIRD_HITBOX)
          { x := 40, topHeight := 50, passed := false } = true ↔
        overlaps (birdBox 100)
            (topSegmentBox { x := 40, topHeight := 50, passed := false }) ∨
          overlaps (birdBox 100)
            (bottomSegmentBox 600 { x := 40, topHeight := 50, passed := false })) ∧
      pipeCollides 100 (100 + BIRD_HITBOX)
          { x := 40, topHeight := 50, passed := false } = false ∧
      pipeCollides 40 (40 + BIRD_HITBOX)
          { x := 40, topHeight := 50, passed := false } = true := by
  refine ⟨by norm_num, by norm_num [BIRD_HITBOX],
    claim_obstacle_collision_iff 600
      { x := 40, topHeight := 50, passed := false } 100 (by norm_num)
      (by norm_num [BIRD_HITBOX]), ?_, ?_⟩ <;>
    norm_num [pipeCollides, birdLeft, birdRight, BIRD_HITBOX, PIPE_WIDTH,
      PIPE_GAP]

/-- C8: while PLAYING, the primary input unconditionally overwrites the
velocity with the fixed negative constant JUMP_STRENGTH; from START the same
input instead starts a fresh run, whose velocity is 0 and not
JUMP_STRENGTH. -/
theorem claim_impulse_behavior (s : GameData) :
    (s.gameState = GameState.PLAYING →
      jump s = { s with birdVelocity := JUMP_STRENGTH } ∧ JUMP_STRENGTH < 0) ∧
    (s.gameState = GameState.START →
      (jump s).gameState = GameState.PLAYING ∧ (jump s).birdVelocity = 0 ∧
        (jump s).birdVelocity ≠ JUMP_STRENGTH) := by
  constructor
  · intro h
    exact ⟨by simp [jump, h], by norm_num [JUMP_STRENGTH]⟩
  · intro h
    refine ⟨by simp [jump, h, startGame, resetGame],
      by simp [jump, h, startGame, resetGame],
      by simp [jump, h, startGame, resetGame]; norm_num [JUMP_STRENGTH]⟩

/-- C8 witness: the impulse at the scenario PLAYING state, and the same
input on the menu state. -/
theorem claim_impulse_behavior_witness :
    baseState.gameState = GameState.PLAYING ∧
      (jump baseState = { baseState with birdVelocity := JUMP_STRENGTH } ∧
        JUMP_STRENGTH < 0) ∧
      idleState.gameState = GameState.START ∧
      ((jump idleState).gameState = GameState.PLAYING ∧
        (jump idleState).birdVelocity = 0 ∧
        (jump idleState).birdVelocity ≠ JUMP_STRENGTH) :=
  ⟨rfl, (claim_impulse_behavior baseState).1 rfl, rfl,
   (claim_impulse_behavior idleState).2 rfl⟩

/-- C9: a frame run in any state other than PLAYING leaves the whole
simulation state unchanged (position, velocity, pipes, frame counter,
score, high score, pending requests) while the render section still
executes. -/
theorem claim_paused_frame_noop (W H rh : ℚ) (s : GameData)
    (h : s.gameState ≠ GameState.PLAYING) :
    updateFrame W H rh s = (s, true) :=
  updateFrame_not_playing W H rh s h

/-- C9 witness: a concrete PAUSED frame. -/
theorem claim_paused_frame_noop_witness :
    pausedState.gameState ≠ GameState.PLAYING ∧
      updateFrame 480 600 100 pausedState = (pausedState, true) :=
  ⟨by decide, claim_paused_frame_noop 480 600 100 pausedState (by decide)⟩

/-- C10: in PAUSED and in GAMEOVER the primary input handler is a complete
no-op on the simulation state. -/
theorem claim_input_noop_paused_ended (s : GameData)
    (h : s.gameState = GameState.PAUSED ∨ s.gameState = GameState.GAMEOVER) :
    jump s = s := by
  rcases h with h | h <;> simp [jump, h]

/-- C10 witness: the input at a concrete PAUSED state and at a concrete
GAMEOVER state. -/
theorem claim_input_noop_paused_ended_witness :
    (pausedState.gameState = GameState.PAUSED ∨
        pausedState.gameState = GameState.GAMEOVER) ∧
      jump pausedState = pausedState ∧ jump endedState = endedState :=
  ⟨Or.inl rfl, claim_input_noop_paused_ended pausedState (Or.inl rfl),
   claim_input_noop_paused_ended endedState (Or.inr rfl)⟩

/-- A PLAYING state whose tick both detects a fatal pipe collision and
scores an obstacle: the pipe at x = -9 moves to -12 and is newly passed
(50 > 48), while the pipe at 43 moves to 40 and overlaps the bird box. -/
def collisionTickState : GameData :=
  { gameState := GameState.PLAYING, birdY := 300, birdVelocity := 0,
    pipes := [{ x := -9, topHeight := 50, passed := false },
              { x := 43, topHeight := 50, passed := false }],
    frameCount := 0, score := 0, highScore := 0, aiRequests := [] }

/-- A PLAYING state with a single, already-passed pipe about to move from
x = -58 to x = -61 and be pruned. -/
def offscreenState : GameData :=
  { gameState := GameState.PLAYING, birdY := 300, birdVelocity := 0,
    pipes := [{ x := -58, topHeight := 50, passed := true }],
    frameCount := 0, score := 0, highScore := 0, aiRequests := [] }

/-- A PLAYING state whose tick brings the bird's top edge to exactly 0:
velocity -1 becomes -1/2, position 1/2 becomes 0. -/
def ceilingTouchState : GameData :=
  { gameState := GameState.PLAYING, birdY := 1/2, birdVelocity := -1,
    pipes := [], frameCount := 0, score := 0, highScore := 0,
    aiRequests := [] }

/-- C3: the score never decreases across a tick; the passage flag, once
set, is never re-marked; and on a PLAYING tick that does not hit the
ceiling or floor, the score grows by exactly the number of not-yet-passed
pipes whose trailing edge is strictly left of the bird's left edge, each of
which is marked passed in the resulting pipe list. -/
theorem claim_score_monotone_passage (W H rh : ℚ) (s : GameData) :
    s.score ≤ (tick W H rh s).score ∧
      (∀ p : Pipe, p.passed = true → markPassage p = p) ∧
      (s.gameState = GameState.PLAYING →
        ceilingFloorHit H (s.birdY + (s.birdVelocity + GRAVITY)) = false →
        (tick W H rh s).score =
            s.score + (activePipes W rh s).countP newlyPassed ∧
          (tick W H rh s).pipes = (activePipes W rh s).map markPassage) := by
  refine ⟨?_, ?_, ?_⟩
  · by_cases h : s.gameState = GameState.PLAYING
    · rw [tick_playing_eq W H rh s h]
      split_ifs <;> simp [triggerGameOver]
    · rw [tick_not_playing W H rh s h]
  · intro p hp
    simp [markPassage, newlyPassed, hp]
  · intro h hcf
    rw [tick_playing_eq W H rh s h, hcf]
    simp only [Bool.false_eq_true, if_false]
    split_ifs <;> simp [triggerGameOver]

/-- C3 witness: one tick of `collisionTickState` scores exactly the single
newly passed pipe and marks it. -/
theorem claim_score_monotone_passage_witness :
    collisionTickState.score ≤ (tick 480 600 100 collisionTickState).score ∧
      collisionTickState.gameState = GameState.PLAYING ∧
      ceilingFloorHit 600
          (collisionTickState.birdY +
            (collisionTickState.birdVelocity + GRAVITY)) = false ∧
      (tick 480 600 100 collisionTickState).score =
          collisionTickState.score +
            (activePipes 480 100 collisionTickState).countP newlyPassed ∧
      (tick 480 600 100 collisionTickState).pipes =
        (activePipes 480 100 collisionTickState).map markPassage := by
  have h := claim_score_monotone_passage 480 600 100 collisionTickState
  have hcf : ceilingFloorHit 600
      (collisionTickState.birdY +
        (collisionTickState.birdVelocity + GRAVITY)) = false := by
    norm_num [ceilingFloorHit, collisionTickState, GRAVITY, BIRD_HITBOX]
  exact ⟨h.1, rfl, hcf, (h.2.2 rfl hcf).1, (h.2.2 rfl hcf).2⟩

/-- C4 counterexample: on this PLAYING tick a fatal obstacle collision is
detected and the run ends, yet a passage/score update is still applied in
the very same tick: the score goes up by 1 for the obstacle further left. -/
theorem claim_game_over_stops_tick_cex :
    (tick 480 600 100 collisionTickState).gameState = GameState.GAMEOVER ∧
      (tick 480 600 100 collisionTickState).score =
        collisionTickState.score + 1 := by
  constructor <;>
    norm_num [tick, updateFrame, activePipes, spawnStep, movePipes,
      removeOffscreen, pipeLoop, pipeStep, pipeCollides, newlyPassed,
      markPassage, ceilingFloorHit, triggerGameOver, GRAVITY, BIRD_HITBOX,
      PIPE_SPAWN_RATE, PIPE_WIDTH, PIPE_GAP, PIPE_SPEED, birdLeft, birdRight,
      collisionTickState]

/-- C4 amended: on a PLAYING tick that ends the run, the state becomes
GAMEOVER, the best score becomes max(best, final score), and exactly one
flavor-text request is recorded for the final score; on a ceiling/floor
collision no passage/score update is applied, but on an obstacle collision
the tick's passage/score updates are applied before the transition. -/
theorem claim_game_over_effects (W H rh : ℚ) (s : GameData)
    (hP : s.gameState = GameState.PLAYING)
    (hG : (tick W H rh s).gameState = GameState.GAMEOVER) :
    (tick W H rh s).highScore = max s.highScore (tick W H rh s).score ∧
      (tick W H rh s).aiRequests = s.aiRequests ++ [(tick W H rh s).score] ∧
      (ceilingFloorHit H (s.birdY + (s.birdVelocity + GRAVITY)) = true →
        (tick W H rh s).score = s.score) ∧
      (ceilingFloorHit H (s.birdY + (s.birdVelocity + GRAVITY)) = false →
        (tick W H rh s).score =
          s.score + (activePipes W rh s).countP newlyPassed) := by
  rw [tick_playing_eq W H rh s hP] at hG ⊢
  split_ifs at hG ⊢ with h1 h2
  · simp [triggerGameOver, h1]
  · simp [triggerGameOver, h1]
  · exact absurd (hP.symm.trans hG) (by simp)

/-- C4 witness: the ceiling-touch state ends its run with final score 0,
max-updated best score, and one recorded flavor-text request. -/
theorem claim_game_over_effects_witness :
    ceilingTouchState.gameState = GameState.PLAYING ∧
      (tick 480 600 100 ceilingTouchState).gameState = GameState.GAMEOVER ∧
      (tick 480 600 100 ceilingTouchState).highScore =
          max ceilingTouchState.highScore
            (tick 480 600 100 ceilingTouchState).score ∧
      (tick 480 600 100 ceilingTouchState).aiRequests =
        ceilingTouchState.aiRequests ++
          [(tick 480 600 100 ceilingTouchState).score] := by
  have hG : (tick 480 600 100 ceilingTouchState).gameState =
      GameState.GAMEOVER := by
    norm_num [tick, updateFrame, activePipes, spawnStep, movePipes,
      removeOffscreen, pipeLoop, pipeStep, pipeCollides, newlyPassed,
      markPassage, ceilingFloorHit, triggerGameOver, GRAVITY, BIRD_HITBOX,
      PIPE_SPAWN_RATE, ceilingTouchState]
  have h := claim_game_over_effects 480 600 100 ceilingTouchState rfl hG
  exact ⟨rfl, hG, h.1, h.2.1⟩

/-- C5 counterexample: the front pipe, at x = -61 after this tick's
movement, is removed from the stream, although the claim's stated removal
condition - trailing edge strictly less than the negative of the width,
here -1 < -60 - is false at it. -/
theorem claim_removal_threshold_cex :
    (tick 480 600 100 offscreenState).pipes = [] ∧
      ¬ ((-58 : ℚ) - PIPE_SPEED + PIPE_WIDTH < -PIPE_WIDTH) := by
  constructor
  · norm_num [tick, updateFrame, activePipes, spawnStep, movePipes,
      removeOffscreen, pipeLoop, pipeStep, pipeCollides, newlyPassed,
      markPassage, ceilingFloorHit, triggerGameOver, GRAVITY, BIRD_HITBOX,
      PIPE_SPAWN_RATE, PIPE_WIDTH, PIPE_GAP, PIPE_SPEED, birdLeft, birdRight,
      offscreenState]
  · norm_num [PIPE_SPEED, PIPE_WIDTH]

/-- C5 amended: only the frontmost pipe is examined, and it is dropped
exactly when its leading edge x is strictly less than -PIPE_WIDTH -
equivalently, when its trailing edge x + PIPE_WIDTH is strictly left of 0
(fully off the left edge); at most one pipe is removed per tick. -/
theorem claim_removal_rule (ps : List Pipe) :
    (ps = [] → removeOffscreen ps = []) ∧
      (∀ p rest, ps = p :: rest →
        removeOffscreen ps = if p.x < -PIPE_WIDTH then rest else p :: rest) ∧
      (∀ p : Pipe, p.x < -PIPE_WIDTH ↔ p.x + PIPE_WIDTH < 0) ∧
      ps.length ≤ (removeOffscreen ps).length + 1 := by
  refine ⟨?_, ?_, ?_, ?_⟩
  · rintro rfl
    rfl
  · rintro p rest rfl
    rfl
  · intro p
    constructor <;> intro h <;> linarith
  · cases ps with
    | nil => simp [removeOffscreen]
    | cons p rest =>
      rw [removeOffscreen]
      split_ifs <;> simp

/-- C5 witness: the rule at a concrete one-pipe list whose front pipe sits
at x = -61. -/
theorem claim_removal_rule_witness :
    removeOffscreen [{ x := -61, topHeight := 50, passed := true }] =
        (if (-61 : ℚ) < -PIPE_WIDTH then ([] : List Pipe)
         else [{ x := -61, topHeight := 50, passed := true }]) ∧
      removeOffscreen [{ x := -61, topHeight := 50, passed := true }] = [] := by
  have h := (claim_removal_rule
      [{ x := -61, topHeight := 50, passed := true }]).2.1
    { x := -61, topHeight := 50, passed := true } [] rfl
  refine ⟨h, ?_⟩
  rw [h]
  norm_num [PIPE_WIDTH]

/-- C6: while the run stays PLAYING, the frame counter after t ticks from a
fresh run reads exactly t, and the next tick appends exactly one pipe -
located at the playfield's right edge W with its passed flag false - iff
t + 1 is a multiple of PIPE_SPAWN_RATE; hence the first pipe appears on
tick PIPE_SPAWN_RATE, not on tick 0. -/
theorem claim_spawn_cadence (W H rh : ℚ) (rhf : ℕ → ℚ) (s : GameData) (t : ℕ)
    (h0 : s.frameCount = 0)
    (hP : (ticks W H rhf t s).gameState = GameState.PLAYING) :
    (ticks W H rhf t s).frameCount = t ∧
      spawnStep W rh ((ticks W H rhf t s).frameCount + 1)
          (ticks W H rhf t s).pipes =
        (if (t + 1) % PIPE_SPAWN_RATE = 0
         then (ticks W H rhf t s).pipes ++
            [{ x := W, topHeight := rh, passed := false }]
         else (ticks W H rhf t s).pipes) := by
  have hf := ticks_frameCount W H rhf s t h0 hP
  refine ⟨hf, ?_⟩
  rw [hf]
  rfl

/-- C6 witness: at t = 0 on the fresh scenario state, the next tick (tick
number 1) appends nothing, since 1 is not a multiple of the spawn rate. -/
theorem claim_spawn_cadence_witness :
    baseState.frameCount = 0 ∧
      (ticks 480 600 (fun _ => 100) 0 baseState).gameState =
        GameState.PLAYING ∧
      (ticks 480 600 (fun _ => 100) 0 baseState).frameCount = 0 ∧
      spawnStep 480 100
          ((ticks 480 600 (fun _ => 100) 0 baseState).frameCount + 1)
          (ticks 480 600 (fun _ => 100) 0 baseState).pipes =
        (ticks 480 600 (fun _ => 100) 0 baseState).pipes := by
  have h := claim_spawn_cadence 480 600 100 (fun _ => 100) baseState 0 rfl rfl
  refine ⟨rfl, rfl, h.1, ?_⟩
  rw [h.2]
  norm_num [PIPE_SPAWN_RATE]

/-- C7 counterexample: with no obstacles at all, a tick that brings the
bird's top edge to exactly y = 0 - the boxes touch the ceiling without
strict overlap - nevertheless ends the run. -/
theorem claim_near_miss_cex :
    (tick 480 600 100 ceilingTouchState).gameState = GameState.GAMEOVER ∧
      (tick 480 600 100 ceilingTouchState).birdY = 0 ∧
      ceilingTouchState.pipes = [] := by
  refine ⟨?_, ?_, rfl⟩ <;>
    norm_num [tick, updateFrame, activePipes, spawnStep, movePipes,
      removeOffscreen, pipeLoop, pipeStep, pipeCollides, newlyPassed,
      markPassage, ceilingFloorHit, triggerGameOver, GRAVITY, BIRD_HITBOX,
      PIPE_SPAWN_RATE, ceilingTouchState]

/-- C7 amended: a PLAYING tick ends the run iff, at the integrated
position, the bird's bottom is at or below the floor (non-strict), its top
is at or above the ceiling (non-strict), or its box strictly overlaps some
live obstacle's top or bottom segment box; touching an obstacle segment
without strict overlap never triggers, but touching the ceiling or floor
exactly does. -/
theorem claim_collision_rule_amended (W H rh : ℚ) (s : GameData)
    (hP : s.gameState = GameState.PLAYING) :
    ((tick W H rh s).gameState = GameState.GAMEOVER ↔
      s.birdY + (s.birdVelocity + GRAVITY) + BIRD_HITBOX ≥ H ∨
        s.birdY + (s.birdVelocity + GRAVITY) ≤ 0 ∨
        ∃ p ∈ activePipes W rh s,
          overlaps (birdBox (s.birdY + (s.birdVelocity + GRAVITY)))
              (topSegmentBox p) ∨
            overlaps (birdBox (s.birdY + (s.birdVelocity + GRAVITY)))
              (bottomSegmentBox H p)) := by
  rw [tick_playing_eq W H rh s hP]
  set y := s.birdY + (s.birdVelocity + GRAVITY) with hy
  by_cases hcf : ceilingFloorHit H y = true
  · rw [if_pos hcf]
    constructor
    · intro _
      have h3 : y + BIRD_HITBOX ≥ H ∨ y ≤ 0 := by
        simpa only [ceilingFloorHit, Bool.or_eq_true, decide_eq_true_eq]
          using hcf
      rcases h3 with h3 | h3
      · exact Or.inl h3
      · exact Or.inr (Or.inl h3)
    · intro _
      rfl
  · rw [if_neg hcf]
    have hcf2 : ¬ (y + BIRD_HITBOX ≥ H) ∧ ¬ (y ≤ 0) := by
      simpa only [ceilingFloorHit, Bool.or_eq_true, decide_eq_true_eq, not_or]
        using hcf
    have h1 : 0 < y := not_le.mp hcf2.2
    have h2 : y + BIRD_HITBOX < H := not_le.mp hcf2.1
    by_cases hany :
        (activePipes W rh s).any (pipeCollides y (y + BIRD_HITBOX)) = true
    · rw [if_pos hany]
      constructor
      · intro _
        rcases List.any_eq_true.mp hany with ⟨p, hp, hc⟩
        exact Or.inr (Or.inr
          ⟨p, hp, (pipeCollides_iff_overlap H p y h1 h2).mp hc⟩)
      · intro _
        rfl
    · rw [if_neg hany]
      constructor
      · intro hg
        exact absurd (hP.symm.trans hg) (by simp)
      · rintro (hle | hle | ⟨p, hp, hov⟩)
        · exact absurd hle hcf2.1
        · exact absurd hle hcf2.2
        · exact absurd (List.any_eq_true.mpr
            ⟨p, hp, (pipeCollides_iff_overlap H p y h1 h2).mpr hov⟩) hany

/-- C7 amended witness: the ceiling-touch state ends its run, and the
equivalence certifies it via the non-strict ceiling disjunct. -/
theorem claim_collision_rule_amended_witness :
    ceilingTouchState.gameState = GameState.PLAYING ∧
      ((tick 480 600 100 ceilingTouchState).gameState =
          GameState.GAMEOVER ↔
        ceilingTouchState.birdY +
              (ceilingTouchState.birdVelocity + GRAVITY) + BIRD_HITBOX ≥
            600 ∨
          ceilingTouchState.birdY +
              (ceilingTouchState.birdVelocity + GRAVITY) ≤ 0 ∨
          ∃ p ∈ activePipes 480 100 ceilingTouchState,
            overlaps
                (birdBox (ceilingTouchState.birdY +
                  (ceilingTouchState.birdVelocity + GRAVITY)))
                (topSegmentBox p) ∨
              overlaps
                (birdBox (ceilingTouchState.birdY +
                  (ceilingTouchState.birdVelocity + GRAVITY)))
                (bottomSegmentBox 600 p)) ∧
      (tick 480 600 100 ceilingTouchState).gameState = GameState.GAMEOVER := by
  have h := claim_collision_rule_amended 480 600 100 ceilingTouchState rfl
  refine ⟨rfl, h, h.mpr (Or.inr (Or.inl ?_))⟩
  norm_num [ceilingTouchState, GRAVITY]

end StriveBird
